import Mathlib

/-!
Verification of the wavefront-lambda-go handler wrapper (`handler.go`).

The development shallowly embeds the package's core: the signature
validator (`validateArguments` / `validateReturns`), the payload adapter
(`newHandler` / `errorHandler`), and the telemetry decorator
(`HandlerWrapper.Invoke`), together with the process-wide counter state.

External collaborators (the Wavefront sender, `encoding/json`, the memory
stats provider) are abstracted exactly at the interface the code uses.
-/

namespace WfLambda


/-- Generic JSON-compatible values, the shallow embedding of the dynamic
`interface{}` payloads that `encoding/json` round-trips.  Numbers are
embedded as integers since no claim depends on float payloads. -/
inductive Json where
  | null : Json
  | bool (b : Bool) : Json
  | num (n : Int) : Json
  | str (s : String) : Json
  | arr (xs : List Json) : Json
  | obj (fields : List (String × Json)) : Json

/-- A dynamic value returned by a reflective handler call
(`[]reflect.Value` element).  `val` is an ordinary value; `errv` is a
value whose dynamic type implements `error` (`errv none` is a nil error
interface, on which a type assertion `.(error)` fails in Go). -/
inductive RVal where
  | val (v : Json) : RVal
  | errv (e : Option String) : RVal

/-- Models `response[len-1].Interface().(error)` in `newHandler`: the type
assertion succeeds exactly on a non-nil error value. -/
def assertError : RVal → Option String
  | .errv (some e) => some e
  | .errv none => none
  | .val _ => none

/-- Models the tail of `newHandler`'s closure (handler.go lines 234-246):
`err` is the last return value when it asserts to `error`, and `val` is
`response[0]` when there is more than one return value. -/
def convertReturns (response : List RVal) : Option RVal × Option String :=
  let err : Option String :=
    match response.getLast? with
    | some r => assertError r
    | none => none
  let val : Option RVal := if response.length > 1 then response.head? else none
  (val, err)

/-- The reflected shape of a handler function, the fields of
`reflect.Type` that `validateArguments` / `validateReturns` consult. -/
structure HandlerType where
  numIn : Nat
  firstArgImplementsContext : Bool
  firstArgKind : String
  numOut : Nat
  out1ImplementsError : Bool
  out0ImplementsError : Bool
deriving DecidableEq

/-- `validateArguments` (handler.go lines 151-165): at most two arguments,
and a two-argument handler must take a `Context` first; returns whether
the handler takes a context. -/
def validateArguments (handler : HandlerType) : Except String Bool :=
  if handler.numIn > 2 then
    .error ("handlers may not take more than two arguments, but handler takes "
      ++ toString handler.numIn)
  else if handler.numIn > 0 then
    let handlerTakesContext := handler.firstArgImplementsContext
    if handler.numIn > 1 && !handlerTakesContext then
      .error ("handler takes two arguments, but the first is not Context. got "
        ++ handler.firstArgKind)
    else
      .ok handlerTakesContext
  else
    .ok false

/-- `validateReturns` (handler.go lines 172-186): at most two return
values; with two the second must implement `error`; with one that value
must implement `error`. -/
def validateReturns (handler : HandlerType) : Except String Unit :=
  if handler.numOut > 2 then
    .error "handler may not return more than two values"
  else if handler.numOut > 1 then
    if !handler.out1ImplementsError then
      .error "handler returns two values, but the second does not implement error"
    else
      .ok ()
  else if handler.numOut == 1 then
    if !handler.out0ImplementsError then
      .error "handler returns a single value, but it does not implement error"
    else
      .ok ()
  else
    .ok ()

/-- Opaque embedding of `context.Context` values. -/
abbrev Ctx := Nat

/-- A concrete Go function value to be wrapped: its reflected shape, the
payload decode step, and its behaviour under `reflect.Value.Call`.
`decodePayload` models `json.Marshal` of the generic input followed by
`json.Unmarshal` into a fresh `In(NumIn-1)` value (handler.go lines
217-227), with the decoded value rendered back as its generic JSON
representation; `encoding/json` is an external collaborator, so the
composite is kept abstract per function.  `impl` models
`handler.Call(args)` given the optional context argument and the optional
decoded payload argument. -/
structure GoFunc where
  ty : HandlerType
  decodePayload : Json → Except String Json
  impl : Option Ctx → Option Json → List RVal

/-- The handler symbol passed to `newHandler`: nil, a non-function value
(with its `reflect.Kind` string), or a function. -/
inductive HandlerSym where
  | nilSym : HandlerSym
  | notFunc (kind : String) : HandlerSym
  | func (f : GoFunc) : HandlerSym

/-- The observable result of one call to the callable `newHandler`
produces: whether the underlying handler was invoked, the decoded payload
argument it was given (if any), and the normalized (response, error)
pair. -/
structure AdapterOutput where
  handlerInvoked : Bool
  calledWith : Option Json
  response : Option RVal
  error : Option String

/-- `errorHandler` (handler.go lines 140-144): a callable that always
returns `(nil, e)` without invoking anything. -/
def errorHandler (e : String) : Ctx → Json → AdapterOutput :=
  fun _ _ => ⟨false, none, none, some e⟩

/-- The closure `newHandler` returns for a validated function
(handler.go lines 209-247): builds the argument list, decoding a payload
when `(NumIn == 1 && !takesContext) || NumIn == 2`, short-circuiting on a
decode failure, then calls the function and normalizes its returns. -/
def adapterBody (handlerType : HandlerType) (takesContext : Bool) (f : GoFunc)
    (ctx : Ctx) (payload : Json) : AdapterOutput :=
  let ctxArg : Option Ctx := if takesContext then some ctx else none
  if (handlerType.numIn == 1 && !takesContext) || handlerType.numIn == 2 then
    match f.decodePayload payload with
    | .error e => ⟨false, none, none, some e⟩
    | .ok event =>
      let response := f.impl ctxArg (some event)
      let converted := convertReturns response
      ⟨true, some event, converted.1, converted.2⟩
  else
    let response := f.impl ctxArg none
    let converted := convertReturns response
    ⟨true, none, converted.1, converted.2⟩

/-- `newHandler` (handler.go lines 190-248): rejects nil and non-function
symbols, runs the two validators, and on success returns the payload
adapter closure; any validation failure yields a permanently failing
`errorHandler`. -/
def newHandler (handlerSymbol : HandlerSym) : Ctx → Json → AdapterOutput :=
  match handlerSymbol with
  | .nilSym => errorHandler "handler is nil"
  | .notFunc kind => errorHandler ("handler kind " ++ kind ++ " is not func")
  | .func f =>
    match validateArguments f.ty with
    | .error e => errorHandler e
    | .ok takesContext =>
      match validateReturns f.ty with
      | .error e => errorHandler e
      | .ok _ => adapterBody f.ty takesContext f

/-- The first validation error `newHandler` hits for a function symbol's
shape, if any: argument validation runs first, then return validation. -/
def firstValidationError (t : HandlerType) : Option String :=
  match validateArguments t with
  | .error e => some e
  | .ok _ =>
    match validateReturns t with
    | .error e => some e
    | .ok _ => none

/-! ### Telemetry decorator (`HandlerWrapper.Invoke`) -/

/-- The lambda context the execution environment provides
(`lambdacontext.LambdaContext`); only the invoked-function ARN is read. -/
structure LambdaContext where
  invokedFunctionArn : String

/-- Models Go `strings.Split(s, ":")` on character lists: splits on every
colon and keeps empty segments. -/
def splitCharList : List Char → List (List Char)
  | [] => [[]]
  | c :: rest =>
    if c == ':' then
      [] :: splitCharList rest
    else
      match splitCharList rest with
      | seg :: more => (c :: seg) :: more
      | [] => [[c]]

/-- Models `strings.Split(invokedFunctionArn, ":")` (handler.go line 51).
Like Go, the result is never empty: an empty string splits to `[""]`. -/
def splitOnColon (s : String) : List String :=
  (splitCharList s.toList).map fun cs => String.mk cs

/-- Upsert into the shared `PointTags` map, embedded as an association
list with deterministic (insertion-ordered) key order. -/
def setTag (tags : List (String × String)) (k v : String) : List (String × String) :=
  if tags.any (fun p => p.1 == k) then
    tags.map fun p => if p.1 == k then (k, v) else p
  else
    tags ++ [(k, v)]

/-- Look a tag up in the embedded `PointTags` map. -/
def getTag (tags : List (String × String)) (k : String) : Option String :=
  (tags.find? fun p => p.1 == k).map fun p => p.2

/-- Insert a key into an embedded Go map's key list if absent.  Go map
iteration order is unspecified; the embedding fixes insertion order, which
no claim distinguishes (claims depend only on key membership and on the
send result of the last key iterated, which is parameterized). -/
def upsertKey (keys : List String) (k : String) : List String :=
  if keys.contains k then keys else keys ++ [k]

/-- Modelled from the spec: the process-wide counter and cold-start state
(`errCounter`, `invocationsCounter`, `csCounter`, `coldStart`) and the
`WavefrontAgent`'s `PointTags`, `metrics` and `counters` maps live in a
repository file that is not under `src/`; per the spec they are
process-wide accumulators with monotonic increment semantics and
string-keyed maps.  Metric float values (duration, memory) are not
tracked: no claim depends on them, only on the key sets sent. -/
structure GState where
  errCounter : Nat
  invocationsCounter : Nat
  csCounter : Nat
  coldStart : Bool
  pointTags : List (String × String)
  metricKeys : List String
  counterKeys : List String

/-- The external Wavefront sender, abstracted at the interface `Invoke`
uses: for each metric name, the error (if any) that `SendMetric` resp.
`SendDeltaCounter` returns for it during this invocation.  `Flush` and
`Close` are pure opaque effects, recorded as events. -/
structure Sender where
  sendMetricErr : String → Option String
  sendDeltaCounterErr : String → Option String

/-- Observable interactions of one `Invoke` run with the sender and the
logger, in execution order. -/
inductive Event where
  | sendMetric (name : String) : Event
  | sendDeltaCounter (name : String) : Event
  | flush : Event
  | close : Event
  | logError (msg : String) : Event

/-- What the inner wrapped handler does when `Invoke` calls it
(handler.go line 96): return a `(response, err)` pair, or panic. -/
inductive HandlerBehavior where
  | returns (response : Option RVal) (err : Option String) : HandlerBehavior
  | panics (msg : String) : HandlerBehavior

/-- How one `Invoke` run ends: a normal return of `(response, err)`, or a
propagated panic. -/
inductive Outcome where
  | returned (response : Option RVal) (err : Option String) : Outcome
  | panicked (msg : String) : Outcome

/-- The result of one `Invoke` run: final process state, sender/logger
event trace, and the outcome delivered to the caller. -/
structure InvokeResult where
  state : GState
  events : List Event
  outcome : Outcome

/-- Go runtime panic message for dereferencing the nil
`hw.lambdaContext` at handler.go line 50. -/
def nilDerefMsg : String :=
  "runtime error: invalid memory address or nil pointer dereference"

/-- Go runtime panic message for the unguarded `splitArn` indexing at
handler.go lines 59-68. -/
def indexRangeMsg : String := "runtime error: index out of range"

/-- Tag resolution (handler.go lines 50-69): mutates the shared tag map
in source order; `.error tags` means the run panics (index out of range)
with the tags mutated so far, `.ok tags` means resolution completed.
`splitArn[3]`, `[4]`, `[5]` are read unconditionally, `[6]` whenever the
resource type is `function` or `event-source-mappings`, and `[7]` for a
`function` ARN of exactly 8 segments. -/
def resolveTags (tags0 : List (String × String)) (invokedFunctionArn : String)
    (functionName functionVersion : String) :
    Except (List (String × String)) (List (String × String)) :=
  let splitArn := splitOnColon invokedFunctionArn
  let tags := setTag tags0 "LambdaArn" invokedFunctionArn
  let tags := setTag tags "source" functionName
  let tags := setTag tags "FunctionName" functionName
  let tags := setTag tags "ExecutedVersion" functionVersion
  if splitArn.length < 4 then .error tags
  else
    let tags := setTag tags "Region" (splitArn.getD 3 "")
    if splitArn.length < 5 then .error tags
    else
      let tags := setTag tags "accountId" (splitArn.getD 4 "")
      if splitArn.length < 6 then .error tags
      else if splitArn.getD 5 "" == "function" then
        if splitArn.length < 7 then .error tags
        else
          let resource := splitArn.getD 6 ""
          let resource :=
            if splitArn.length == 8 then resource ++ ":" ++ splitArn.getD 7 ""
            else resource
          .ok (setTag tags "Resource" resource)
      else if splitArn.getD 5 "" == "event-source-mappings" then
        if splitArn.length < 7 then .error tags
        else .ok (setTag tags "EventSourceMappings" (splitArn.getD 6 ""))
      else .ok tags

/-- Events of one send loop (handler.go lines 121-126 and 129-134): each
key is sent; a failing send is logged and the loop continues. -/
def sendLoopEvents (mk : String → Event) (send : String → Option String) :
    List String → List Event
  | [] => []
  | n :: rest =>
    (mk n :: (match send n with | some e => [Event.logError e] | none => []))
      ++ sendLoopEvents mk send rest

/-- The value of the named return `err` after a send loop: the loop body
assigns each send's result to `err` (handler.go lines 122 and 130), so
afterwards `err` is the last key's send result, or its previous value if
the map was empty. -/
def lastSendResult (send : String → Option String) (keys : List String)
    (prev : Option String) : Option String :=
  match keys.getLast? with
  | some n => send n
  | none => prev

/-- The body of `Invoke` from the point the cleanup `defer` is registered
(handler.go lines 72-137): increments the invocation counter, calls the
handler, and either (panic path) runs only the deferred error send /
flush / close and re-panics, or (return path) increments the error
counter on a handler error, handles cold start, populates the counters
and metrics maps, runs both send loops — each send result overwriting the
named return `err` — and then runs the deferred cleanup, which reads that
overwritten `err`. -/
def invokeBody (g0 : GState) (sender : Sender) (handler : HandlerBehavior) :
    InvokeResult :=
  let g := { g0 with invocationsCounter := g0.invocationsCounter + 1 }
  match handler with
  | .panics m =>
    ⟨{ g with errCounter := g.errCounter + 1 },
      [Event.sendDeltaCounter "aws.lambda.wf.errors", Event.flush, Event.close],
      .panicked m⟩
  | .returns resp herr =>
    let g := if herr.isSome then { g with errCounter := g.errCounter + 1 } else g
    let g :=
      if g.coldStart then { g with csCounter := g.csCounter + 1, coldStart := false }
      else g
    let counterKeys :=
      upsertKey (upsertKey g.counterKeys "aws.lambda.wf.coldstarts")
        "aws.lambda.wf.invocations"
    let metricKeys :=
      upsertKey (upsertKey (upsertKey (upsertKey g.metricKeys
        "aws.lambda.wf.duration") "aws.lambda.wf.mem.total")
        "aws.lambda.wf.mem.used") "aws.lambda.wf.mem.percentage"
    let metricEvents := sendLoopEvents Event.sendMetric sender.sendMetricErr metricKeys
    let errAfterMetrics := lastSendResult sender.sendMetricErr metricKeys herr
    let counterEvents :=
      sendLoopEvents Event.sendDeltaCounter sender.sendDeltaCounterErr counterKeys
    let errFinal := lastSendResult sender.sendDeltaCounterErr counterKeys errAfterMetrics
    let deferred :=
      match errFinal with
      | some _ =>
        ({ g with errCounter := g.errCounter + 1 },
          [Event.sendDeltaCounter "aws.lambda.wf.errors"])
      | none => (g, ([] : List Event))
    ⟨{ deferred.1 with metricKeys := metricKeys, counterKeys := counterKeys },
      metricEvents ++ counterEvents ++ deferred.2 ++ [Event.flush, Event.close],
      .returned resp errFinal⟩

/-- `HandlerWrapper.Invoke` (handler.go lines 44-137).  `FromContext`'s
error is discarded (line 46), so a context without a lambda context
yields a nil `hw.lambdaContext` and line 50 panics before any tag is set
and before the cleanup `defer` of line 72 is registered; likewise a panic
during tag resolution propagates with no deferred cleanup. -/
def invoke (g : GState) (sender : Sender) (functionName functionVersion : String)
    (lambdaCtx : Option LambdaContext) (handler : HandlerBehavior) : InvokeResult :=
  match lambdaCtx with
  | none => ⟨g, [], .panicked nilDerefMsg⟩
  | some lc =>
    match resolveTags g.pointTags lc.invokedFunctionArn functionName functionVersion with
    | .error tags => ⟨{ g with pointTags := tags }, [], .panicked indexRangeMsg⟩
    | .ok tags => invokeBody { g with pointTags := tags } sender handler

/-! ### Validation-run accounting (`wrapHandler` / `NewHandlerWrapper`) -/

/-- Number of signature-validation passes executed while constructing the
handler with `newHandler` (handler.go lines 190-207): for a function
symbol the validators run once, at construction. -/
def newHandlerValidationRuns : HandlerSym → Nat
  | .func _ => 1
  | _ => 0

/-- `NewHandlerWrapper` (handler.go lines 35-40) calls `newHandler` once,
so constructing a wrapper runs validation `newHandlerValidationRuns`
times. -/
def newHandlerWrapperValidationRuns (s : HandlerSym) : Nat :=
  newHandlerValidationRuns s

/-- `Invoke` (handler.go lines 44-137) contains no call to the
validators: an invocation of an existing wrapper re-runs validation zero
times. -/
def invokeValidationRuns : Nat := 0

/-- One call of the closure `wrapHandler` returns (handler.go lines
20-23): it constructs a fresh `HandlerWrapper` via `NewHandlerWrapper`
and then invokes it, so each call runs validation
`newHandlerWrapperValidationRuns s + invokeValidationRuns` times. -/
def wrapHandlerCallValidationRuns (s : HandlerSym) : Nat :=
  newHandlerWrapperValidationRuns s + invokeValidationRuns

/-- `wrapHandler` itself (handler.go line 19) only builds the closure
(zero validations at wrap time); after `n` invocations of the produced
callable, validation has run `n` times per-call. -/
def wrapHandlerValidationRunsAfter (s : HandlerSym) (n : Nat) : Nat :=
  n * wrapHandlerCallValidationRuns s

/-! ### Concrete instances used by evaluations and witnesses -/

/-- A fresh process: all counters zero, cold-start flag set, empty maps. -/
def freshState : GState := ⟨0, 0, 0, true, [], [], []⟩

/-- A sender whose sends all succeed. -/
def allOkSender : Sender := ⟨fun _ => none, fun _ => none⟩

/-- A sender whose metric sends succeed but whose delta-counter sends all
fail. -/
def failingCounterSender : Sender := ⟨fun _ => none, fun _ => some "network down"⟩

/-- A function-resource ARN with a version qualifier (8 segments). -/
def functionArn : String := "arn:aws:lambda:us-west-2:123456789012:function:my-func:3"

/-- An event-source-mappings ARN (7 segments). -/
def mappingArn : String := "arn:aws:lambda:us-west-2:123456789012:event-source-mappings:abc123"

/-- The tag map `resolveTags` produces from an empty map for
`functionArn` with function name "fn" and version "ver". -/
def functionTagList : List (String × String) :=
  [("LambdaArn", functionArn), ("source", "fn"), ("FunctionName", "fn"),
    ("ExecutedVersion", "ver"), ("Region", "us-west-2"),
    ("accountId", "123456789012"), ("Resource", "my-func:3")]

/-- A function value taking three arguments (illegal shape). -/
def exampleTooManyArgsFunc : GoFunc :=
  ⟨⟨3, false, "string", 0, false, false⟩, Except.ok, fun _ _ => []⟩

/-- A legal `(Context, T) -> (R, error)` function value. -/
def exampleLegalFunc : GoFunc :=
  ⟨⟨2, true, "interface", 2, true, false⟩, Except.ok,
    fun _ _ => [.val (.num 7), .errv none]⟩

/-- A legal `(Context, T) -> (R, error)` function returning value 7 and a
non-nil error, whose payload decode is the identity round-trip. -/
def roundTripFunc : GoFunc :=
  ⟨⟨2, true, "interface", 2, true, false⟩, Except.ok,
    fun _ _ => [.val (.num 7), .errv (some "oops")]⟩

/-- A structured JSON payload. -/
def payloadExample : Json := .obj [("key", .num 1), ("list", .arr [.str "a", .bool true])]

/-- A legal one-argument (payload, no context) function whose payload
decode fails. -/
def decodeFailFunc : GoFunc :=
  ⟨⟨1, false, "struct", 2, true, false⟩,
    fun _ => .error "json: cannot unmarshal string into Go value",
    fun _ _ => [.val .null, .errv none]⟩

/-! ### Helper lemmas -/

/-- Upserting a key never yields an empty key list. -/
lemma upsertKey_ne_nil (ks : List String) (k : String) : upsertKey ks k ≠ [] := by
  unfold upsertKey
  split
  · intro h
    subst h
    simp at *
  · simp

/-- When tag resolution succeeds, `invoke` runs `invokeBody` on the state
with the refreshed tag map. -/
lemma invoke_ok (g : GState) (sender : Sender) (fn fv : String) (lc : LambdaContext)
    (handler : HandlerBehavior) (tags : List (String × String))
    (hres : resolveTags g.pointTags lc.invokedFunctionArn fn fv = .ok tags) :
    invoke g sender fn fv (some lc) handler
      = invokeBody { g with pointTags := tags } sender handler := by
  simp [invoke, hres]

/-- `invokeBody` increments the invocation counter exactly once
(handler.go line 95), on every path. -/
lemma invokeBody_invocations (g : GState) (s : Sender) (h : HandlerBehavior) :
    (invokeBody g s h).state.invocationsCounter = g.invocationsCounter + 1 := by
  cases h with
  | panics m => simp [invokeBody]
  | returns resp herr =>
    simp only [invokeBody]
    split <;> split <;> split <;> simp

/-- When every delta-counter send succeeds and the key list is nonempty,
the named return `err` is `nil` after the counter send loop. -/
lemma lastSendResult_none (s : Sender) (ks : List String) (prev : Option String)
    (hok : ∀ n, s.sendDeltaCounterErr n = none) (hne : ks ≠ []) :
    lastSendResult s.sendDeltaCounterErr ks prev = none := by
  unfold lastSendResult
  cases hg : ks.getLast? with
  | none => exact absurd (List.getLast?_eq_none_iff.mp hg) hne
  | some n => exact hok n

/-- `invokeBody` increments the error counter at most twice (handler.go
lines 76/79 in the deferred cleanup and line 98 after the handler call). -/
lemma invokeBody_err_le (g : GState) (s : Sender) (h : HandlerBehavior) :
    (invokeBody g s h).state.errCounter ≤ g.errCounter + 2 := by
  cases h with
  | panics m => simp [invokeBody]
  | returns resp herr =>
    simp only [invokeBody]
    split <;> split <;> split <;> simp

/-- With all delta-counter sends succeeding, the deferred cleanup sees a
nil `err` and the error counter is incremented at most once. -/
lemma invokeBody_err_le_one (g : GState) (s : Sender) (h : HandlerBehavior)
    (hok : ∀ n, s.sendDeltaCounterErr n = none) :
    (invokeBody g s h).state.errCounter ≤ g.errCounter + 1 := by
  cases h with
  | panics m => simp [invokeBody]
  | returns resp herr =>
    simp only [invokeBody]
    rw [lastSendResult_none s _ _ hok (upsertKey_ne_nil _ _)]
    dsimp only
    split <;> split <;> simp

/-- On a handler panic, `invokeBody` increments the invocation and error
counters, emits exactly the error delta counter, flush and close in that
order, and re-raises the panic. -/
lemma invokeBody_panic (g : GState) (s : Sender) (m : String) :
    invokeBody g s (.panics m)
      = ⟨{ g with invocationsCounter := g.invocationsCounter + 1, errCounter := g.errCounter + 1 },
          [Event.sendDeltaCounter "aws.lambda.wf.errors", Event.flush, Event.close],
          .panicked m⟩ := rfl

/-- On a normal handler return, the cold-start counter is incremented
exactly when the flag was still set, and the flag is false afterwards
(handler.go lines 102-106). -/
lemma invokeBody_coldstart (g : GState) (s : Sender) (resp : Option RVal)
    (herr : Option String) :
    (invokeBody g s (.returns resp herr)).state.csCounter
        = (if g.coldStart then g.csCounter + 1 else g.csCounter) ∧
    (invokeBody g s (.returns resp herr)).state.coldStart = false := by
  simp only [invokeBody]
  split <;> split <;> split <;> simp_all

/-- A successful argument validation implies at most two arguments, and a
context-like first argument whenever there are two. -/
lemma validateArguments_ok_shape (t : HandlerType) (b : Bool)
    (h : validateArguments t = .ok b) :
    t.numIn ≤ 2 ∧ (t.numIn = 2 → t.firstArgImplementsContext = true) := by
  unfold validateArguments at h
  split at h
  · exact absurd h (by simp)
  · dsimp only at h
    split at h
    · split at h
      · exact absurd h (by simp)
      · rename_i h1 h2 h3
        refine ⟨by omega, fun h2in => ?_⟩
        simp only [Bool.and_eq_true, Bool.not_eq_true'] at h3
        by_cases hc : t.firstArgImplementsContext = true
        · exact hc
        · exfalso
          apply h3
          refine ⟨by simp; omega, by simpa using hc⟩
    · rename_i h1 h2
      refine ⟨by omega, fun h2in => absurd h2in (by omega)⟩

/-- More than two arguments always yields the too-many-arguments error. -/
lemma validateArguments_gt2 (t : HandlerType) (h : t.numIn > 2) :
    validateArguments t
      = .error ("handlers may not take more than two arguments, but handler takes "
          ++ toString t.numIn) := by
  simp [validateArguments, h]

/-- More than two return values, or a single non-error return value,
always fails return validation. -/
lemma validateReturns_error_of_shape (t : HandlerType)
    (h : t.numOut > 2 ∨ (t.numOut = 1 ∧ t.out0ImplementsError = false)) :
    ∃ e, validateReturns t = .error e := by
  rcases h with h | ⟨h1, h2⟩
  · exact ⟨"handler may not return more than two values", by simp [validateReturns, h]⟩
  · exact ⟨"handler returns a single value, but it does not implement error",
      by simp [validateReturns, h1, h2]⟩

/-- An ARN of fewer than 6 colon-separated segments makes tag resolution
abort: one of the unguarded `splitArn` indexings (handler.go lines 59-62)
is out of range. -/
lemma resolveTags_error_of_short (tags : List (String × String)) (arn fn fv : String)
    (h : (splitOnColon arn).length < 6) :
    ∃ t, resolveTags tags arn fn fv = .error t := by
  simp only [resolveTags]
  repeat' split
  all_goals exact ⟨_, rfl⟩

/-! ### Claim theorems -/

/-- C1: evaluation at the failing input. The claim states that telemetry
emission outcomes never affect the `(response, error)` pair `Invoke`
returns. The code assigns each send's result to the named return `err`
(handler.go lines 122 and 130), so a handler error "handler failed" is
returned as `none` when all sends succeed, and as the last counter send's
own transport error when that send fails — the handler's error is
discarded either way, contradicting `Invoke`'s own doc comment
(handler.go lines 42-43). -/
theorem invoke_returns_last_send_error_eval :
    (invoke freshState allOkSender "f" "v" (some ⟨functionArn⟩)
        (.returns (some (.val (.str "ok"))) (some "handler failed"))).outcome
      = .returned (some (.val (.str "ok"))) none ∧
    (invoke freshState failingCounterSender "f" "v" (some ⟨functionArn⟩)
        (.returns (some (.val (.str "ok"))) (some "handler failed"))).outcome
      = .returned (some (.val (.str "ok"))) (some "network down") :=
  ⟨rfl, rfl⟩

/-- C2: counterexample. Starting from a zero error counter, a single
`Invoke` call whose handler returns an error and whose delta-counter
sends fail increments the error counter twice (handler.go line 98, and
line 79 because the deferred cleanup reads the `err` overwritten by the
send loop), refuting "the error counter is incremented at most once". -/
theorem errCounter_double_increment_eval :
    (invoke freshState failingCounterSender "f" "v" (some ⟨functionArn⟩)
        (.returns none (some "handler failed"))).state.errCounter = 2 := rfl

/-- C2 (amended): for every `Invoke` call that completes tag resolution,
the invocation counter is incremented exactly once; the error counter is
incremented at most twice, and at most once provided the delta-counter
sends succeed. -/
theorem invoke_counter_increments (g : GState) (sender : Sender) (fn fv : String)
    (lc : LambdaContext) (handler : HandlerBehavior) (tags : List (String × String))
    (hres : resolveTags g.pointTags lc.invokedFunctionArn fn fv = .ok tags) :
    (invoke g sender fn fv (some lc) handler).state.invocationsCounter
        = g.invocationsCounter + 1 ∧
    (invoke g sender fn fv (some lc) handler).state.errCounter ≤ g.errCounter + 2 ∧
    ((∀ n, sender.sendDeltaCounterErr n = none) →
      (invoke g sender fn fv (some lc) handler).state.errCounter ≤ g.errCounter + 1) := by
  rw [invoke_ok g sender fn fv lc handler tags hres]
  exact ⟨invokeBody_invocations _ _ _, invokeBody_err_le _ _ _,
    fun hok => invokeBody_err_le_one _ _ _ hok⟩

/-- C2: witness instantiating the amended counter theorem at a concrete
successful run. -/
theorem invoke_counter_increments_witness :
    (invoke freshState allOkSender "fn" "ver" (some ⟨functionArn⟩)
        (.returns none none)).state.invocationsCounter
        = freshState.invocationsCounter + 1 ∧
    (invoke freshState allOkSender "fn" "ver" (some ⟨functionArn⟩)
        (.returns none none)).state.errCounter ≤ freshState.errCounter + 2 ∧
    ((∀ n, allOkSender.sendDeltaCounterErr n = none) →
      (invoke freshState allOkSender "fn" "ver" (some ⟨functionArn⟩)
          (.returns none none)).state.errCounter ≤ freshState.errCounter + 1) :=
  invoke_counter_increments freshState allOkSender "fn" "ver" ⟨functionArn⟩
    (.returns none none) functionTagList (by rfl)

/-- C3: counterexample. On a fresh process (cold-start flag true), a
first invocation whose handler panics leaves the cold-start counter at 0
and the flag still true: the cold-start block (handler.go lines 102-106)
sits after the handler call rather than in the deferred cleanup, so an
abnormal abort skips it — refuting "regardless of whether that first
invocation returns normally, returns an error, or aborts abnormally". -/
theorem coldstart_unchanged_on_first_panic_eval :
    (invoke freshState allOkSender "f" "v" (some ⟨functionArn⟩)
        (.panics "boom")).state.csCounter = 0 ∧
    (invoke freshState allOkSender "f" "v" (some ⟨functionArn⟩)
        (.panics "boom")).state.coldStart = true :=
  ⟨rfl, rfl⟩

/-- C3 (amended): the cold-start counter is incremented exactly on the
first invocation that does not abort abnormally: if the process-wide flag
is still true and the handler returns (normally or with an error) the
counter is incremented and the flag flips to false; once false the flag
stays false and the counter is never incremented again; an invocation
whose handler panics changes neither the counter nor the flag. -/
theorem invoke_coldstart_discipline (g : GState) (sender : Sender) (fn fv : String)
    (lc : LambdaContext) (handler : HandlerBehavior) (tags : List (String × String))
    (hres : resolveTags g.pointTags lc.invokedFunctionArn fn fv = .ok tags) :
    (∀ resp herr, handler = .returns resp herr →
      (invoke g sender fn fv (some lc) handler).state.csCounter
          = (if g.coldStart then g.csCounter + 1 else g.csCounter) ∧
      (invoke g sender fn fv (some lc) handler).state.coldStart = false) ∧
    (∀ m, handler = .panics m →
      (invoke g sender fn fv (some lc) handler).state.csCounter = g.csCounter ∧
      (invoke g sender fn fv (some lc) handler).state.coldStart = g.coldStart) := by
  rw [invoke_ok g sender fn fv lc handler tags hres]
  constructor
  · intro resp herr hh
    subst hh
    exact invokeBody_coldstart _ _ _ _
  · intro m hh
    subst hh
    rw [invokeBody_panic]
    exact ⟨rfl, rfl⟩

/-- C3: witness instantiating the cold-start theorem at a concrete
normal run. -/
theorem invoke_coldstart_discipline_witness :
    (∀ resp herr, (HandlerBehavior.returns none none) = .returns resp herr →
      (invoke freshState allOkSender "fn" "ver" (some ⟨functionArn⟩)
          (.returns none none)).state.csCounter
          = (if freshState.coldStart then freshState.csCounter + 1 else freshState.csCounter) ∧
      (invoke freshState allOkSender "fn" "ver" (some ⟨functionArn⟩)
          (.returns none none)).state.coldStart = false) ∧
    (∀ m, (HandlerBehavior.returns none none) = .panics m →
      (invoke freshState allOkSender "fn" "ver" (some ⟨functionArn⟩)
          (.returns none none)).state.csCounter = freshState.csCounter ∧
      (invoke freshState allOkSender "fn" "ver" (some ⟨functionArn⟩)
          (.returns none none)).state.coldStart = freshState.coldStart) :=
  invoke_coldstart_discipline freshState allOkSender "fn" "ver" ⟨functionArn⟩
    (.returns none none) functionTagList (by rfl)

/-- C4: counterexample. The closure returned by `wrapHandler` constructs
a fresh `HandlerWrapper` — and with it re-runs `newHandler`'s signature
validation — inside the per-invocation closure (handler.go line 21):
after 2 invocations validation has run 2 times, once per call, not a
single time at wrap. -/
theorem wrapHandler_revalidates_each_invocation_eval :
    wrapHandlerValidationRunsAfter (.func exampleLegalFunc) 2 = 2 ∧
    wrapHandlerCallValidationRuns (.func exampleLegalFunc) = 1 :=
  ⟨rfl, rfl⟩

/-- C4 (amended): validation runs once per `NewHandlerWrapper`
construction and `Invoke` itself never re-validates, but the callable
produced by `wrapHandler` constructs a new wrapper on each call, so
through `wrapHandler` validation runs once per invocation — `n` times
after `n` invocations, not once per wrap. -/
theorem validation_runs_accounting (f : GoFunc) (n : Nat) :
    wrapHandlerValidationRunsAfter (.func f) n = n ∧
    newHandlerWrapperValidationRuns (.func f) = 1 ∧
    invokeValidationRuns = 0 := by
  refine ⟨?_, rfl, rfl⟩
  simp [wrapHandlerValidationRunsAfter, wrapHandlerCallValidationRuns,
    newHandlerWrapperValidationRuns, newHandlerValidationRuns, invokeValidationRuns]

/-- C5: whenever tag resolution succeeds and the inner handler aborts
abnormally, `Invoke`'s deferred cleanup increments the error counter and
emits it as a delta counter, then flushes, then closes the transport —
in exactly that order — and only afterwards re-raises the abort to the
caller; the abort is never swallowed. -/
theorem invoke_panic_finalization (g : GState) (sender : Sender) (fn fv : String)
    (lc : LambdaContext) (tags : List (String × String)) (m : String)
    (hres : resolveTags g.pointTags lc.invokedFunctionArn fn fv = .ok tags) :
    invoke g sender fn fv (some lc) (.panics m)
      = ⟨{ g with pointTags := tags, invocationsCounter := g.invocationsCounter + 1, errCounter := g.errCounter + 1 },
          [Event.sendDeltaCounter "aws.lambda.wf.errors", Event.flush, Event.close],
          .panicked m⟩ := by
  rw [invoke_ok g sender fn fv lc (.panics m) tags hres]
  rfl

/-- C5: witness instantiating the finalization theorem at a concrete
panicking run. -/
theorem invoke_panic_finalization_witness :
    invoke freshState allOkSender "fn" "ver" (some ⟨functionArn⟩) (.panics "boom")
      = ⟨{ freshState with pointTags := functionTagList, invocationsCounter := freshState.invocationsCounter + 1, errCounter := freshState.errCounter + 1 },
          [Event.sendDeltaCounter "aws.lambda.wf.errors", Event.flush, Event.close],
          .panicked "boom"⟩ :=
  invoke_panic_finalization freshState allOkSender "fn" "ver" ⟨functionArn⟩
    functionTagList "boom" (by rfl)

/-- C6: for `arn:aws:lambda:us-west-2:123456789012:function:my-func:3`
the decorator sets point tags Region=us-west-2, accountId=123456789012
and Resource=my-func:3; for
`arn:aws:lambda:us-west-2:123456789012:event-source-mappings:abc123` it
sets EventSourceMappings=abc123 and no Resource tag. -/
theorem arn_tag_resolution_eval :
    getTag (invoke freshState allOkSender "myFunction" "1" (some ⟨functionArn⟩)
        (.returns none none)).state.pointTags "Region" = some "us-west-2" ∧
    getTag (invoke freshState allOkSender "myFunction" "1" (some ⟨functionArn⟩)
        (.returns none none)).state.pointTags "accountId" = some "123456789012" ∧
    getTag (invoke freshState allOkSender "myFunction" "1" (some ⟨functionArn⟩)
        (.returns none none)).state.pointTags "Resource" = some "my-func:3" ∧
    getTag (invoke freshState allOkSender "myFunction" "1" (some ⟨mappingArn⟩)
        (.returns none none)).state.pointTags "EventSourceMappings" = some "abc123" ∧
    getTag (invoke freshState allOkSender "myFunction" "1" (some ⟨mappingArn⟩)
        (.returns none none)).state.pointTags "Resource" = none :=
  ⟨rfl, rfl, rfl, rfl, rfl⟩

/-- C7: wrapping a function of illegal shape (more than two arguments,
two arguments with a non-context first, more than two return values, or
a single non-error return value) produces a callable that on every
invocation returns no response together with the same wrap-time
validation error — for more than two arguments, the "may not take more
than two arguments" error — and never invokes the original function. -/
theorem wrap_illegal_shape_permanent_error (f : GoFunc) (ctx : Ctx) (p : Json)
    (hill : f.ty.numIn > 2
      ∨ (f.ty.numIn = 2 ∧ f.ty.firstArgImplementsContext = false)
      ∨ f.ty.numOut > 2
      ∨ (f.ty.numOut = 1 ∧ f.ty.out0ImplementsError = false)) :
    newHandler (.func f) ctx p = ⟨false, none, none, firstValidationError f.ty⟩ ∧
    (firstValidationError f.ty).isSome = true ∧
    (f.ty.numIn > 2 → firstValidationError f.ty
        = some ("handlers may not take more than two arguments, but handler takes "
            ++ toString f.ty.numIn)) := by
  cases hva : validateArguments f.ty with
  | error e =>
    have hnh : newHandler (.func f) ctx p = ⟨false, none, none, some e⟩ := by
      simp [newHandler, hva, errorHandler]
    have hfv : firstValidationError f.ty = some e := by
      simp [firstValidationError, hva]
    refine ⟨by rw [hnh, hfv], by rw [hfv]; rfl, fun hgt => ?_⟩
    rw [validateArguments_gt2 f.ty hgt] at hva
    injection hva with he
    rw [hfv, he]
  | ok tc =>
    obtain ⟨hle, hctx⟩ := validateArguments_ok_shape f.ty tc hva
    cases hvr : validateReturns f.ty with
    | error e =>
      have hnh : newHandler (.func f) ctx p = ⟨false, none, none, some e⟩ := by
        simp [newHandler, hva, hvr, errorHandler]
      have hfv : firstValidationError f.ty = some e := by
        simp [firstValidationError, hva, hvr]
      exact ⟨by rw [hnh, hfv], by rw [hfv]; rfl, fun hgt => absurd hgt (by omega)⟩
    | ok u =>
      exfalso
      rcases hill with h | ⟨h1, h2⟩ | h | h
      · omega
      · exact absurd (hctx h1) (by simp [h2])
      · obtain ⟨e, he⟩ := validateReturns_error_of_shape f.ty (Or.inl h)
        rw [he] at hvr
        exact Except.noConfusion hvr
      · obtain ⟨e, he⟩ := validateReturns_error_of_shape f.ty (Or.inr h)
        rw [he] at hvr
        exact Except.noConfusion hvr

/-- C7: witness instantiating the illegal-shape theorem at a
three-argument function. -/
theorem wrap_illegal_shape_permanent_error_witness :
    newHandler (.func exampleTooManyArgsFunc) 0 .null
      = ⟨false, none, none, firstValidationError exampleTooManyArgsFunc.ty⟩ ∧
    (firstValidationError exampleTooManyArgsFunc.ty).isSome = true ∧
    (exampleTooManyArgsFunc.ty.numIn > 2 →
      firstValidationError exampleTooManyArgsFunc.ty
        = some ("handlers may not take more than two arguments, but handler takes "
            ++ toString exampleTooManyArgsFunc.ty.numIn)) :=
  wrap_illegal_shape_permanent_error exampleTooManyArgsFunc 0 .null (Or.inl (by decide))

/-- C8: for a handler of shape `(Context, T) -> (R, error)` and a
JSON-compatible payload whose decode round-trip is the identity, the
adapter hands the handler a value structurally equal to the payload and
returns exactly the handler's `R` as the response and the handler's
error as the error. -/
theorem adapter_round_trip (f : GoFunc) (ctx : Ctx) (p r : Json) (eo : Option String)
    (h1 : f.ty.numIn = 2) (h2 : f.ty.firstArgImplementsContext = true)
    (h3 : f.ty.numOut = 2) (h4 : f.ty.out1ImplementsError = true)
    (hdec : f.decodePayload p = .ok p)
    (himpl : f.impl (some ctx) (some p) = [.val r, .errv eo]) :
    newHandler (.func f) ctx p = ⟨true, some p, some (.val r), eo⟩ := by
  have hva : validateArguments f.ty = .ok true := by
    simp [validateArguments, h1, h2]
  have hvr : validateReturns f.ty = .ok () := by
    simp [validateReturns, h3, h4]
  simp only [newHandler, hva, hvr]
  simp [adapterBody, h1, hdec, himpl, convertReturns, assertError]
  cases eo <;> simp [assertError]

/-- C8: witness instantiating the round-trip theorem at a structured
payload. -/
theorem adapter_round_trip_witness :
    newHandler (.func roundTripFunc) 0 payloadExample
      = ⟨true, some payloadExample, some (.val (.num 7)), some "oops"⟩ :=
  adapter_round_trip roundTripFunc 0 payloadExample (.num 7) (some "oops")
    rfl rfl rfl rfl rfl rfl

/-- C9: when a payload argument is expected and the JSON round-trip into
the handler's declared argument type fails, the adapter returns that
error with no response and the handler function is never invoked. -/
theorem adapter_decode_failure (f : GoFunc) (ctx : Ctx) (p : Json) (e : String) (tc : Bool)
    (hva : validateArguments f.ty = .ok tc)
    (hvr : validateReturns f.ty = .ok ())
    (hpay : ((f.ty.numIn == 1 && !tc) || f.ty.numIn == 2) = true)
    (hdec : f.decodePayload p = .error e) :
    newHandler (.func f) ctx p = ⟨false, none, none, some e⟩ := by
  simp [newHandler, hva, hvr, adapterBody, hpay, hdec]

/-- C9: witness instantiating the decode-failure theorem at a concrete
failing decode. -/
theorem adapter_decode_failure_witness :
    newHandler (.func decodeFailFunc) 0 (.str "x")
      = ⟨false, none, none, some "json: cannot unmarshal string into Go value"⟩ :=
  adapter_decode_failure decodeFailFunc 0 (.str "x")
    "json: cannot unmarshal string into Go value" false rfl rfl rfl rfl

/-- C10: when the execution context carries no lambda context, or the
invoked-function ARN splits on ':' into fewer than 6 segments, `Invoke`
aborts (nil dereference or index out of range) during the unguarded tag
resolution that precedes the cleanup `defer`, so the transport's flush
and close — indeed any sender interaction — never happen for that
invocation. -/
theorem invoke_unguarded_abort (g : GState) (sender : Sender) (fn fv : String)
    (lcOpt : Option LambdaContext) (handler : HandlerBehavior)
    (h : lcOpt = none
      ∨ ∃ lc, lcOpt = some lc ∧ (splitOnColon lc.invokedFunctionArn).length < 6) :
    ((invoke g sender fn fv lcOpt handler).outcome = .panicked nilDerefMsg ∨
      (invoke g sender fn fv lcOpt handler).outcome = .panicked indexRangeMsg) ∧
    (invoke g sender fn fv lcOpt handler).events = [] := by
  rcases h with h | ⟨lc, hlc, hshort⟩
  · subst h
    exact ⟨Or.inl rfl, rfl⟩
  · subst hlc
    obtain ⟨t, ht⟩ := resolveTags_error_of_short g.pointTags lc.invokedFunctionArn fn fv hshort
    refine ⟨Or.inr ?_, ?_⟩ <;> simp [invoke, ht]

/-- C10: witness instantiating the unguarded-abort theorem at a missing
lambda context. -/
theorem invoke_unguarded_abort_witness :
    ((invoke freshState allOkSender "fn" "ver" none (.returns none none)).outcome
        = .panicked nilDerefMsg ∨
      (invoke freshState allOkSender "fn" "ver" none (.returns none none)).outcome
        = .panicked indexRangeMsg) ∧
    (invoke freshState allOkSender "fn" "ver" none (.returns none none)).events = [] :=
  invoke_unguarded_abort freshState allOkSender "fn" "ver" none (.returns none none)
    (Or.inl rfl)

end WfLambda
